import Mathlib

/-!
Verification of the client-side module layer of xgovuk-flask-admin.

The repository ships three small pieces of browser JavaScript:

* src/assets/components/select-with-search.js : the SelectWithSearch module,
  which enhances a select element with the Choices.js combobox widget;
* src/assets/components/auto-submit.js : the AutoSubmit module, which submits
  the enclosing form whenever a marked select changes;
* src/assets/main.js : the page bootstrap, which on DOMContentLoaded scans the
  document for elements with a data-module marker, instantiates the matching
  module for each and calls its init method, then attaches the
  FilterToggleButton constructor to window and dispatches the
  FilterToggleButtonReady event.

This file shallowly embeds those scripts.  A DOM element is a record of the
fields the scripts read (tag name, id, attributes, multiple flag, child
options, nearest ancestor form).  Module initialisation is embedded as a pure
function from the element to a trace of effects (diagnostic reports, listener
attachment, widget construction, DOM mutation), and the bootstrap scan as a
state transformer on a page state.  The third-party Choices.js widget is
embedded only at the interface the repository code touches: the configuration
record the code passes to its constructor, and the rendered container that
callbackOnInit rearranges.
-/

/-- A select option as the scripts see it: the value attribute and the
visible text content.  The repository's server-rendered markup gives every
option an explicit value attribute, so the attribute is modelled as a plain
string (an absent attribute is the empty string, which is also what the
option's value property reports for an empty option). -/
structure OptionEl where
  value : String
  textContent : String
deriving DecidableEq

/-- A DOM element as read by the modules: tag name (for matches "select"),
element id, the attribute list (data-module marker, aria-describedby,
data-remove-duplicates), the multiple property, the child option list of a
select (the repository renders options as direct children of the select), and
the result of closest "form" — the id of the nearest ancestor form element,
none when the element has no form ancestor. -/
structure Element where
  tag : String
  id : String
  attrs : List (String × String)
  multiple : Bool
  options : List OptionEl
  closestForm : Option String
deriving DecidableEq

/-- getAttribute: the value of a named attribute, none when absent. -/
def getAttr (e : Element) (name : String) : Option String :=
  e.attrs.lookup name

/-- Whether the element carries the data-module marker for the given
capability key (the querySelectorAll filter used by the bootstrap). -/
def hasMarker (e : Element) (key : String) : Bool :=
  getAttr e "data-module" == some key

/-- The configuration object select-with-search.js passes to the Choices
constructor (select-with-search.js, the new Choices call). -/
structure ChoicesConfig where
  allowHTML : Bool
  searchPlaceholderValue : String
  shouldSort : Bool
  itemSelectText : String
  searchResultLimit : Nat
  removeItemButton : Bool
  duplicateItemsAllowed : Bool
  labelId : String
  fuseIgnoreLocation : Bool
  fuseThreshold : Nat
deriving DecidableEq

/-- The aria-describedby read in init:
getAttribute("aria-describedby") || "" — the empty string both when the
attribute is absent (null) and when it is present but empty. -/
def ariaDescribedByOf (e : Element) : String :=
  (getAttr e "aria-describedby").getD ""

/-- The composed label id: this.module.id + "-label " + ariaDescribedBy. -/
def labelIdOf (e : Element) : String :=
  e.id ++ "-label " ++ ariaDescribedByOf e

/-- removeDuplicates: getAttribute("data-remove-duplicates") === "true". -/
def removeDuplicatesOf (e : Element) : Bool :=
  getAttr e "data-remove-duplicates" == some "true"

/-- The Choices configuration built by SelectWithSearch.prototype.init,
field for field from the source. -/
def swsConfig (e : Element) : ChoicesConfig where
  allowHTML := false
  searchPlaceholderValue := "Search in list"
  shouldSort := false
  itemSelectText := ""
  searchResultLimit := 100
  removeItemButton := e.multiple
  duplicateItemsAllowed := !removeDuplicatesOf e
  labelId := labelIdOf e
  fuseIgnoreLocation := true
  fuseThreshold := 0

/-- The placeholder text written by init: "Select all that apply" for a
multiple select, "Select one" otherwise. -/
def placeholderText (multiple : Bool) : String :=
  if multiple then "Select all that apply" else "Select one"

/-- The select's option list after the placeholder normalisation step of
SelectWithSearch.prototype.init.  The code queries
option[value=""]:first-child — in the flat option-children model this is the
first option when its value attribute is empty — and rewrites its text only
when its textContent is also the empty string. -/
def swsOptionsAfterInit (e : Element) : List OptionEl :=
  match e.options with
  | [] => []
  | o :: rest =>
    if o.value = "" ∧ o.textContent = "" then
      { o with textContent := placeholderText e.multiple } :: rest
    else
      o :: rest

/-- One observable effect of running a module's init method: a console.error
diagnostic, the placeholder text mutation, attaching a change listener that
submits the given form, constructing the Choices widget, or storing the
widget handle on the element (this.module.choices = this.choices). -/
inductive InitEffect where
  | consoleError (msg : String)
  | rewritePlaceholder (text : String)
  | addChangeListener (formId : String)
  | constructChoices (cfg : ChoicesConfig)
  | setChoicesHandle
deriving DecidableEq

/-- AutoSubmit.prototype.init as an effect trace: error and return when the
element is not a select; error and return when it has no ancestor form;
otherwise attach one change listener that submits that form. -/
def autoSubmitInit (e : Element) : List InitEffect :=
  if e.tag ≠ "select" then
    [.consoleError "AutoSubmit module must be applied to a select element"]
  else
    match e.closestForm with
    | none => [.consoleError "AutoSubmit module requires select to be within a form"]
    | some f => [.addChangeListener f]

/-- SelectWithSearch.prototype.init as an effect trace: error and return when
the element is not a select; otherwise the optional placeholder rewrite,
then the Choices construction with the computed configuration, then the
assignment of the widget handle onto the element. -/
def swsInit (e : Element) : List InitEffect :=
  if e.tag ≠ "select" then
    [.consoleError "Module is not a select element"]
  else
    (match e.options with
     | [] => []
     | o :: _ =>
       if o.value = "" ∧ o.textContent = "" then
         [.rewritePlaceholder (placeholderText e.multiple)]
       else []) ++
    [.constructChoices (swsConfig e), .setChoicesHandle]

/-- An action performed on the page as a result of an event. -/
inductive DomAction where
  | submitForm (formId : String)
deriving DecidableEq

/-- The form ids targeted by the change listeners an init trace attached. -/
def changeListenersOf (effects : List InitEffect) : List String :=
  effects.filterMap fun eff =>
    match eff with
    | .addChangeListener f => some f
    | _ => none

/-- The listener body AutoSubmit attaches: function () { form.submit(); } —
a single synchronous submission of the captured form. -/
def autoSubmitListenerFire (formId : String) : List DomAction :=
  [.submitForm formId]

/-- Browser dispatch of one change event: every registered change listener
runs once, synchronously, in registration order. -/
def dispatchChange (listeners : List String) : List DomAction :=
  (listeners.map autoSubmitListenerFire).flatten

/-- A child of the Choices.js containerInner element: the list holding the
selected-item chips (this.itemList.element) and the search input
(this.input.element). -/
inductive InnerChild where
  | itemList
  | searchInput
deriving DecidableEq

/-- The slice of the rendered Choices.js widget that callbackOnInit touches:
the ordered children of containerInner, and the aria-labelledby attribute of
the listbox (the itemList element). -/
structure ChoicesDom where
  innerChildren : List InnerChild
  listboxAriaLabelledBy : Option String
deriving DecidableEq

/-- Element.prepend: inserts the node as the first child of the container,
removing it first from wherever it currently sits in that container. -/
def prependChild (c : InnerChild) (l : List InnerChild) : List InnerChild :=
  c :: l.filter (fun x => x ≠ c)

/-- The callbackOnInit closure passed to Choices: when the widget is a
select-multiple (this.dropdown.type === "select-multiple"), move the search
input to the top of containerInner with inner.prepend(input); then set
aria-labelledby on the listbox to the captured labelId. -/
def callbackOnInit (isMultiple : Bool) (labelId : String) (d : ChoicesDom) : ChoicesDom :=
  let d1 :=
    if isMultiple then
      { d with innerChildren := prependChild .searchInput d.innerChildren }
    else d
  { d1 with listboxAriaLabelledBy := some labelId }

/-- The rendered container Choices.js hands to callbackOnInit for a select:
containerInner holding the chip list and, for a multiple select, the search
input after it.  (Third-party collaborator structure, per the spec's
description of the feedback area; the claims about the callback do not
depend on this initial order.) -/
def choicesInitialDom (multiple : Bool) : ChoicesDom :=
  ⟨if multiple then [.itemList, .searchInput] else [.itemList], none⟩

/-- a precedes b among the children of a container: a's first index is
strictly smaller than b's. -/
def childPrecedes (l : List InnerChild) (a b : InnerChild) : Prop :=
  l.indexOf a < l.indexOf b

instance (l : List InnerChild) (a b : InnerChild) : Decidable (childPrecedes l a b) :=
  inferInstanceAs (Decidable (l.indexOf a < l.indexOf b))

/-- Whether SelectWithSearch.prototype.init runs to completion on an element,
given an oracle saying for which elements the third-party Choices
constructor throws.  A precondition failure (not a select) is a normal
return — console.error then return — so it completes; only a throwing
constructor (reached only when the precondition holds) escapes. -/
def swsInitCompletes (ctorThrows : Element → Bool) (e : Element) : Bool :=
  if e.tag ≠ "select" then true else !ctorThrows e

/-- Outcome of the bootstrap's forEach over the select-with-search elements:
either every init completed, or some init threw — the loop has no try/catch,
so the exception propagates out of forEach and the remaining elements are
never visited.  The inited list records the elements whose init completed,
in document order. -/
inductive ScanResult where
  | ok (inited : List Element)
  | aborted (inited : List Element) (failing : Element)
deriving DecidableEq

/-- The elements whose init completed during the scan. -/
def ScanResult.inited : ScanResult → List Element
  | .ok l => l
  | .aborted l _ => l

/-- The bootstrap forEach over the marked select-with-search elements, with
the Choices constructor modelled by the throwing oracle: elements are
visited in document order and an uncaught exception aborts the rest of the
scan. -/
def scanSws (ctorThrows : Element → Bool) : List Element → ScanResult
  | [] => .ok []
  | e :: rest =>
    if swsInitCompletes ctorThrows e then
      match scanSws ctorThrows rest with
      | .ok l => .ok (e :: l)
      | .aborted l f => .aborted (e :: l) f
    else
      .aborted [] e

/-- Page state threaded through the bootstrap handler: the document (a list
of elements in document order), the change listeners attached so far (index
of the owning element, target form id) and the Choices widgets constructed
so far (index of the owning element, configuration).  Listeners and widgets
accumulate: addEventListener with a fresh closure always adds, and each init
constructs a fresh widget. -/
structure PageState where
  doc : List Element
  changeListeners : List (Nat × String)
  widgets : List (Nat × ChoicesConfig)
deriving DecidableEq

/-- The fresh page state for a document, before any bootstrap scan. -/
def initialPage (doc : List Element) : PageState :=
  ⟨doc, [], []⟩

/-- Indices of the elements matched by
querySelectorAll, in document order, starting the numbering at i. -/
def markedIdxFrom (key : String) (i : Nat) : List Element → List Nat
  | [] => []
  | e :: rest =>
    if hasMarker e key then i :: markedIdxFrom key (i + 1) rest
    else markedIdxFrom key (i + 1) rest

/-- querySelectorAll with a data-module marker selector: the indices of the
matching elements in document order. -/
def markedIdx (doc : List Element) (key : String) : List Nat :=
  markedIdxFrom key 0 doc

/-- One iteration of the select-with-search forEach (no constructor failure):
when the element is a select, rewrite its options per the placeholder step
and record the constructed widget; otherwise console.error and change
nothing. -/
def swsStep (s : PageState) (i : Nat) : PageState :=
  match s.doc[i]? with
  | some e =>
    if e.tag = "select" then
      { s with
        doc := s.doc.set i { e with options := swsOptionsAfterInit e }
        widgets := s.widgets ++ [(i, swsConfig e)] }
    else s
  | none => s

/-- One iteration of the auto-submit forEach: when the element is a select
inside a form, attach one change listener submitting that form; otherwise
console.error and change nothing. -/
def autoStep (s : PageState) (i : Nat) : PageState :=
  match s.doc[i]? with
  | some e =>
    if e.tag = "select" then
      match e.closestForm with
      | some f => { s with changeListeners := s.changeListeners ++ [(i, f)] }
      | none => s
    else s
  | none => s

/-- The select-with-search half of the DOMContentLoaded handler: snapshot the
marked elements, then init each in document order. -/
def swsPass (st : PageState) : PageState :=
  (markedIdx st.doc "select-with-search").foldl swsStep st

/-- The auto-submit half of the DOMContentLoaded handler. -/
def autoPass (st : PageState) : PageState :=
  (markedIdx st.doc "auto-submit").foldl autoStep st

/-- The whole DOMContentLoaded handler of main.js: the select-with-search
scan, then the auto-submit scan (in source order). -/
def bootstrapHandler (st : PageState) : PageState :=
  autoPass (swsPass st)

/-- Change listeners attached to the element at index i. -/
def listenerCount (st : PageState) (i : Nat) : Nat :=
  (st.changeListeners.filter (fun p => p.1 == i)).length

/-- Widgets constructed on the element at index i. -/
def widgetCount (st : PageState) (i : Nat) : Nat :=
  (st.widgets.filter (fun p => p.1 == i)).length

/-- The top-level statements of main.js, in source order: initAll(),
initAllMOJ(), registering the DOMContentLoaded handler, assigning
window.FilterToggleButton, dispatching the FilterToggleButtonReady event. -/
inductive MainStep where
  | callInitAll
  | callInitAllMOJ
  | registerDomReadyHandler
  | assignFilterToggleGlobal
  | dispatchFilterToggleReady
deriving DecidableEq

/-- main.js top level, statement by statement from the source. -/
def mainScript : List MainStep :=
  [.callInitAll, .callInitAllMOJ, .registerDomReadyHandler,
   .assignFilterToggleGlobal, .dispatchFilterToggleReady]

/-- The window state the bootstrap script mutates: whether the
FilterToggleButton global has been assigned, and — for each dispatch of the
FilterToggleButtonReady event — whether the global was already assigned at
the moment the event fired (what a synchronous handler of that event
observes). -/
structure WindowState where
  filterToggleButtonAttached : Bool
  readyObservations : List Bool
deriving DecidableEq

/-- Sequential execution of one top-level statement of main.js. -/
def execMainStep (w : WindowState) : MainStep → WindowState
  | .assignFilterToggleGlobal => { w with filterToggleButtonAttached := true }
  | .dispatchFilterToggleReady =>
    { w with readyObservations := w.readyObservations ++ [w.filterToggleButtonAttached] }
  | _ => w

/-- Running main.js from a fresh window. -/
def runMainScript : WindowState :=
  mainScript.foldl execMainStep ⟨false, []⟩

/-- The element with its option list cleared: the part of an element the
bootstrap scans and configurations read (tag, id, attributes, multiple,
ancestor form).  Module initialisation mutates only option text, so this
shape is invariant across scans. -/
def elemShape (e : Element) : Element :=
  { e with options := [] }

/-- The listener one auto-submit forEach iteration attaches for the element
at index i of the document: present exactly when the element exists, is a
select and sits inside a form. -/
def autoAttach (doc : List Element) (i : Nat) : Option (Nat × String) :=
  match doc[i]? with
  | some e => if e.tag = "select" then e.closestForm.map (fun f => (i, f)) else none
  | none => none

/-- The widget one select-with-search forEach iteration constructs for the
element at index i. -/
def wAttach (doc : List Element) (i : Nat) : Option (Nat × ChoicesConfig) :=
  match doc[i]? with
  | some e => if e.tag = "select" then some (i, swsConfig e) else none
  | none => none

/-- All listeners one auto-submit scan of the document attaches. -/
def attachedListeners (doc : List Element) : List (Nat × String) :=
  (markedIdx doc "auto-submit").filterMap (autoAttach doc)

/-- All widgets one select-with-search scan of the document constructs. -/
def constructedWidgets (doc : List Element) : List (Nat × ChoicesConfig) :=
  (markedIdx doc "select-with-search").filterMap (wAttach doc)

/-- Sample: a non-select element carrying the select-with-search marker. -/
def divEl : Element :=
  { tag := "div", id := "d1", attrs := [("data-module", "select-with-search")],
    multiple := false, options := [], closestForm := none }

/-- Sample: a select with the auto-submit marker but no ancestor form. -/
def autoOrphanEl : Element :=
  { tag := "select", id := "o1", attrs := [("data-module", "auto-submit")],
    multiple := false, options := [], closestForm := none }

/-- Sample: the page-size select of the spec scenario, inside form f. -/
def autoInFormEl : Element :=
  { tag := "select", id := "page-size", attrs := [("data-module", "auto-submit")],
    multiple := false,
    options := [⟨"20", "20 per page"⟩, ⟨"50", "50 per page"⟩],
    closestForm := some "f" }

/-- Sample: a multiple select with the select-with-search marker, no
aria-describedby and an empty first option. -/
def multiSelectEl : Element :=
  { tag := "select", id := "tags", attrs := [("data-module", "select-with-search")],
    multiple := true, options := [⟨"", ""⟩, ⟨"a", "Apples"⟩], closestForm := none }

/-- Sample: a marked select whose Choices construction succeeds. -/
def swsOkEl : Element :=
  { tag := "select", id := "s0", attrs := [("data-module", "select-with-search")],
    multiple := false, options := [⟨"", ""⟩], closestForm := none }

/-- Sample: a marked select on which the Choices constructor throws. -/
def swsThrowEl : Element :=
  { tag := "select", id := "s1", attrs := [("data-module", "select-with-search")],
    multiple := false, options := [⟨"", ""⟩], closestForm := none }

/-- Sample: a marked select appearing after swsThrowEl in the document. -/
def swsAfterEl : Element :=
  { tag := "select", id := "s2", attrs := [("data-module", "select-with-search")],
    multiple := false, options := [⟨"", ""⟩], closestForm := none }

/-- A constructor-failure oracle: Choices throws exactly on the element with
id s1. -/
def ctorThrowsAtS1 : Element → Bool :=
  fun e => e.id == "s1"

/-- C9: the bootstrap script assigns window.FilterToggleButton before it
dispatches the FilterToggleButtonReady event: the event fires exactly once,
and at that moment the global is already attached, so any synchronous
handler of the event observes it. -/
theorem spec_c9_global_before_ready :
    runMainScript.readyObservations = [true] ∧
    runMainScript.filterToggleButtonAttached = true := by
  decide

/-- C3: on a select inside a form, AutoSubmit's init attaches exactly one
change listener targeting that form, and dispatching one change event on the
select runs that listener once, producing exactly one synchronous submission
of the enclosing form. -/
theorem spec_c3_change_submits_once (e : Element) (f : String)
    (h1 : e.tag = "select") (h2 : e.closestForm = some f) :
    changeListenersOf (autoSubmitInit e) = [f] ∧
    dispatchChange (changeListenersOf (autoSubmitInit e)) = [.submitForm f] := by
  constructor <;>
    simp [autoSubmitInit, h1, h2, changeListenersOf, dispatchChange, autoSubmitListenerFire]

/-- Witness for C3 at the spec scenario's page-size select inside form f. -/
theorem spec_c3_witness :
    changeListenersOf (autoSubmitInit autoInFormEl) = ["f"] ∧
    dispatchChange (changeListenersOf (autoSubmitInit autoInFormEl)) = [.submitForm "f"] :=
  spec_c3_change_submits_once autoInFormEl "f" (by decide) (by decide)

/-- C4: an element failing a module precondition — SelectWithSearch on a
non-select, AutoSubmit on a non-select, or AutoSubmit on a select with no
ancestor form — produces an init trace that is exactly one console.error
diagnostic: no listener attachment, no widget construction, no placeholder
rewrite, no handle assignment, and no other DOM mutation. -/
theorem spec_c4_precondition_failures :
    (∀ e : Element, e.tag ≠ "select" →
      swsInit e = [.consoleError "Module is not a select element"]) ∧
    (∀ e : Element, e.tag ≠ "select" →
      autoSubmitInit e = [.consoleError "AutoSubmit module must be applied to a select element"]) ∧
    (∀ e : Element, e.tag = "select" → e.closestForm = none →
      autoSubmitInit e = [.consoleError "AutoSubmit module requires select to be within a form"]) := by
  refine ⟨fun e h => ?_, fun e h => ?_, fun e h1 h2 => ?_⟩ <;>
    simp [swsInit, autoSubmitInit, *]

/-- Witness for C4 at a marked div and at an orphan select. -/
theorem spec_c4_witness :
    swsInit divEl = [.consoleError "Module is not a select element"] ∧
    autoSubmitInit divEl
      = [.consoleError "AutoSubmit module must be applied to a select element"] ∧
    autoSubmitInit autoOrphanEl
      = [.consoleError "AutoSubmit module requires select to be within a form"] :=
  ⟨spec_c4_precondition_failures.1 divEl (by decide),
   spec_c4_precondition_failures.2.1 divEl (by decide),
   spec_c4_precondition_failures.2.2 autoOrphanEl (by decide) (by decide)⟩

/-- C6: the Choices widget is configured with duplicates disallowed exactly
when the element's data-remove-duplicates attribute is the string "true";
any other value, or an absent attribute, leaves duplicates allowed. -/
theorem spec_c6_remove_duplicates (e : Element) (_h : e.tag = "select") :
    ((swsConfig e).duplicateItemsAllowed = false ↔
      getAttr e "data-remove-duplicates" = some "true") ∧
    (∀ v, getAttr e "data-remove-duplicates" = v → v ≠ some "true" →
      (swsConfig e).duplicateItemsAllowed = true) := by
  constructor
  · simp [swsConfig, removeDuplicatesOf]
  · intro v hv hne
    simp [swsConfig, removeDuplicatesOf, hv]
    exact hne

/-- Witness for C6 at a select carrying data-remove-duplicates="true". -/
theorem spec_c6_witness :
    (swsConfig { tag := "select", id := "r1",
                 attrs := [("data-remove-duplicates", "true")],
                 multiple := false, options := [],
                 closestForm := none }).duplicateItemsAllowed = false ∧
    (swsConfig multiSelectEl).duplicateItemsAllowed = true :=
  ⟨(spec_c6_remove_duplicates _ (by decide)).1.mpr (by decide),
   (spec_c6_remove_duplicates multiSelectEl (by decide)).2 _ rfl (by decide)⟩

/-- C7: every Choices construction by SelectWithSearch uses exactly this
configuration: allowHTML false, search placeholder "Search in list",
shouldSort false, searchResultLimit 100, removeItemButton exactly when the
select is multiple, ignoreLocation true and threshold 0 in the fuse
options. -/
theorem spec_c7_widget_config (e : Element) (_h : e.tag = "select") :
    (swsConfig e).allowHTML = false ∧
    (swsConfig e).searchPlaceholderValue = "Search in list" ∧
    (swsConfig e).shouldSort = false ∧
    (swsConfig e).searchResultLimit = 100 ∧
    ((swsConfig e).removeItemButton = true ↔ e.multiple = true) ∧
    (swsConfig e).fuseIgnoreLocation = true ∧
    (swsConfig e).fuseThreshold = 0 := by
  simp [swsConfig]

/-- Witness for C7 at the sample multiple select. -/
theorem spec_c7_witness :
    (swsConfig multiSelectEl).allowHTML = false ∧
    (swsConfig multiSelectEl).searchPlaceholderValue = "Search in list" ∧
    (swsConfig multiSelectEl).shouldSort = false ∧
    (swsConfig multiSelectEl).searchResultLimit = 100 ∧
    ((swsConfig multiSelectEl).removeItemButton = true ↔ multiSelectEl.multiple = true) ∧
    (swsConfig multiSelectEl).fuseIgnoreLocation = true ∧
    (swsConfig multiSelectEl).fuseThreshold = 0 :=
  spec_c7_widget_config multiSelectEl (by decide)

/-- Unfolding equation for swsOptionsAfterInit on a non-empty option list. -/
theorem swsOptionsAfterInit_cons (e : Element) (o : OptionEl) (rest : List OptionEl)
    (hq : e.options = o :: rest) :
    swsOptionsAfterInit e =
      if o.value = "" ∧ o.textContent = "" then
        { o with textContent := placeholderText e.multiple } :: rest
      else o :: rest := by
  unfold swsOptionsAfterInit
  rw [hq]

/-- C2: the first option of an enhanced select is rewritten exactly when its
value and text are both empty; when rewritten the text becomes "Select all
that apply" for a multiple select and "Select one" otherwise; an option with
non-empty text is never overwritten, and no option after the first is
touched. -/
theorem spec_c2_placeholder_normalisation (e : Element) (o : OptionEl)
    (_h : e.tag = "select") (ho : e.options.head? = some o) :
    ((swsOptionsAfterInit e).head? = some o ↔ ¬(o.value = "" ∧ o.textContent = "")) ∧
    (o.value = "" ∧ o.textContent = "" →
      (swsOptionsAfterInit e).head?
        = some { o with textContent := placeholderText e.multiple }) ∧
    (o.textContent ≠ "" → (swsOptionsAfterInit e).head? = some o) ∧
    (swsOptionsAfterInit e).tail = e.options.tail := by
  cases hq : e.options with
  | nil => rw [hq] at ho; exact absurd ho (by simp)
  | cons o0 rest =>
    rw [hq] at ho
    simp only [List.head?_cons, Option.some.injEq] at ho
    subst ho
    rw [swsOptionsAfterInit_cons e o0 rest hq]
    by_cases hc : o0.value = "" ∧ o0.textContent = ""
    · rw [if_pos hc]
      refine ⟨⟨fun heq => ?_, fun hn => absurd hc hn⟩, fun _ => rfl, fun hne => absurd hc.2 hne, rfl⟩
      exfalso
      have heq2 : ({ o0 with textContent := placeholderText e.multiple } : OptionEl) = o0 :=
        Option.some.inj heq
      have ht : placeholderText e.multiple = o0.textContent :=
        congrArg OptionEl.textContent heq2
      rw [hc.2] at ht
      cases hm : e.multiple <;> rw [hm] at ht <;> simp [placeholderText] at ht
    · rw [if_neg hc]
      exact ⟨⟨fun _ => hc, fun _ => rfl⟩, fun h2 => absurd h2 hc, fun _ => rfl, rfl⟩

/-- Witness for C2 at the sample multiple select (first option empty,
rewritten) and at the page-size select (first option non-empty, kept). -/
theorem spec_c2_witness :
    (swsOptionsAfterInit multiSelectEl).head? = some ⟨"", "Select all that apply"⟩ ∧
    (swsOptionsAfterInit autoInFormEl).head? = some ⟨"20", "20 per page"⟩ :=
  ⟨(spec_c2_placeholder_normalisation multiSelectEl ⟨"", ""⟩ (by decide) (by decide)).2.1
      (by decide),
   (spec_c2_placeholder_normalisation autoInFormEl ⟨"20", "20 per page"⟩ (by decide)
      (by decide)).2.2.1 (by decide)⟩

/-- C10: the composed label-reference id is exactly the element id, the
literal "-label " and the aria-describedby value — the empty string, leaving
a trailing space, when the attribute is absent — and this same string is
both the labelId of the widget configuration and the aria-labelledby the
init callback sets on the generated listbox. -/
theorem spec_c10_label_id (e : Element) (d : ChoicesDom) (_h : e.tag = "select") :
    (∀ s, getAttr e "aria-describedby" = some s →
      (swsConfig e).labelId = e.id ++ "-label " ++ s) ∧
    (getAttr e "aria-describedby" = none →
      (swsConfig e).labelId = e.id ++ "-label " ++ "") ∧
    (callbackOnInit e.multiple (swsConfig e).labelId d).listboxAriaLabelledBy
      = some ((swsConfig e).labelId) := by
  refine ⟨fun s hs => ?_, fun hn => ?_, ?_⟩
  · simp [swsConfig, labelIdOf, ariaDescribedByOf, hs]
  · simp [swsConfig, labelIdOf, ariaDescribedByOf, hn]
  · cases e.multiple <;> simp [callbackOnInit]

/-- Witness for C10 at the sample multiple select, which has no
aria-describedby: the label id ends in the trailing space, and the listbox
receives it. -/
theorem spec_c10_witness :
    (swsConfig multiSelectEl).labelId = "tags" ++ "-label " ++ "" ∧
    (callbackOnInit multiSelectEl.multiple (swsConfig multiSelectEl).labelId
        (choicesInitialDom true)).listboxAriaLabelledBy
      = some ((swsConfig multiSelectEl).labelId) :=
  ⟨(spec_c10_label_id multiSelectEl (choicesInitialDom true) (by decide)).2.1 (by decide),
   (spec_c10_label_id multiSelectEl (choicesInitialDom true) (by decide)).2.2⟩

/-- C5 as stated is false: after callbackOnInit on the sample multiple
select — marker present, no aria-describedby, empty first option, so the
placeholder becomes "Select all that apply" — the chip container does not
precede the search input, because prepend moved the input to the front. -/
theorem spec_c5_counterexample :
    multiSelectEl.multiple = true ∧
    getAttr multiSelectEl "aria-describedby" = none ∧
    (swsOptionsAfterInit multiSelectEl).head? = some ⟨"", "Select all that apply"⟩ ∧
    ¬ childPrecedes
        (callbackOnInit multiSelectEl.multiple (swsConfig multiSelectEl).labelId
          (choicesInitialDom true)).innerChildren
        .itemList .searchInput := by
  decide

/-- C5 amended: for a multiple select, after callbackOnInit the search input
precedes the chip container (the callback prepends the input to the top of
containerInner, so chips follow it). -/
theorem spec_c5_amended (labelId : String) (d : ChoicesDom)
    (_h : InnerChild.itemList ∈ d.innerChildren) :
    childPrecedes (callbackOnInit true labelId d).innerChildren
      .searchInput .itemList := by
  unfold callbackOnInit childPrecedes prependChild
  simp only [if_pos trivial, ite_true]
  have h1 : (InnerChild.searchInput ::
      d.innerChildren.filter (fun x => x ≠ InnerChild.searchInput)).indexOf
      InnerChild.searchInput = 0 := List.indexOf_cons_self _ _
  have h2 : (InnerChild.searchInput ::
      d.innerChildren.filter (fun x => x ≠ InnerChild.searchInput)).indexOf
      InnerChild.itemList
      = (d.innerChildren.filter (fun x => x ≠ InnerChild.searchInput)).indexOf
          InnerChild.itemList + 1 := by
    simp [List.indexOf_cons]
  simp only [h1, h2]
  exact Nat.succ_pos _

/-- Witness for C5 amended at the widget container of the sample multiple
select. -/
theorem spec_c5_witness :
    childPrecedes
      (callbackOnInit true (swsConfig multiSelectEl).labelId
        (choicesInitialDom true)).innerChildren
      .searchInput .itemList :=
  spec_c5_amended (swsConfig multiSelectEl).labelId (choicesInitialDom true) (by decide)

/-- C1 as stated is false: with two marked selects in document order and a
Choices constructor that throws on the first, the bootstrap forEach (which
has no try/catch) aborts, and the second element is never initialized. -/
theorem spec_c1_counterexample :
    ctorThrowsAtS1 swsThrowEl = true ∧
    swsThrowEl.tag = "select" ∧ swsAfterEl.tag = "select" ∧
    scanSws ctorThrowsAtS1 [swsThrowEl, swsAfterEl] = .aborted [] swsThrowEl ∧
    swsAfterEl ∉ (scanSws ctorThrowsAtS1 [swsThrowEl, swsAfterEl]).inited := by
  decide

/-- C1 amended: an exception thrown during one element's initialization
(e.g. by the third-party widget constructor) propagates out of the
bootstrap's forEach, so exactly the elements before the throwing one are
initialized and every later marked element is skipped; a precondition
failure, by contrast, returns normally and does not abort, and a scan with
no exception initializes every element. -/
theorem spec_c1_failure_aborts_scan :
    (∀ ctorThrows : Element → Bool, ∀ pre : List Element, ∀ bad : Element,
      ∀ post : List Element,
      (∀ x ∈ pre, swsInitCompletes ctorThrows x = true) →
      swsInitCompletes ctorThrows bad = false →
      scanSws ctorThrows (pre ++ bad :: post) = .aborted pre bad) ∧
    (∀ ctorThrows : Element → Bool, ∀ e : Element, e.tag ≠ "select" →
      swsInitCompletes ctorThrows e = true) ∧
    (∀ ctorThrows : Element → Bool, ∀ doc : List Element,
      (∀ x ∈ doc, swsInitCompletes ctorThrows x = true) →
      scanSws ctorThrows doc = .ok doc) := by
  refine ⟨fun ctorThrows pre bad post hpre hbad => ?_, fun ctorThrows e h => ?_,
    fun ctorThrows doc hdoc => ?_⟩
  · induction pre with
    | nil =>
      simp only [List.nil_append]
      unfold scanSws
      rw [hbad]
      rfl
    | cons p ps ih =>
      have hp : swsInitCompletes ctorThrows p = true := hpre p (by simp)
      have hps : ∀ x ∈ ps, swsInitCompletes ctorThrows x = true :=
        fun x hx => hpre x (by simp [hx])
      simp only [List.cons_append]
      unfold scanSws
      rw [hp, ih hps]
      rfl
  · simp [swsInitCompletes, h]
  · induction doc with
    | nil => rfl
    | cons e rest ih =>
      have he : swsInitCompletes ctorThrows e = true := hdoc e (by simp)
      have hrest : ∀ x ∈ rest, swsInitCompletes ctorThrows x = true :=
        fun x hx => hdoc x (by simp [hx])
      unfold scanSws
      rw [he, ih hrest]
      rfl

/-- Witness for C1 amended: the throwing element aborts the scan after the
healthy element before it; a marked div completes; an all-healthy scan
completes every element. -/
theorem spec_c1_witness :
    scanSws ctorThrowsAtS1 [swsOkEl, swsThrowEl, swsAfterEl]
      = .aborted [swsOkEl] swsThrowEl ∧
    swsInitCompletes ctorThrowsAtS1 divEl = true ∧
    scanSws ctorThrowsAtS1 [swsOkEl, swsAfterEl] = .ok [swsOkEl, swsAfterEl] :=
  ⟨spec_c1_failure_aborts_scan.1 ctorThrowsAtS1 [swsOkEl] swsThrowEl [swsAfterEl]
      (by decide) (by decide),
   spec_c1_failure_aborts_scan.2.1 ctorThrowsAtS1 divEl (by decide),
   spec_c1_failure_aborts_scan.2.2 ctorThrowsAtS1 [swsOkEl, swsAfterEl] (by decide)⟩

/-- elemShape preserves the tag. -/
theorem elemShape_tag (e : Element) : (elemShape e).tag = e.tag := rfl

/-- elemShape preserves the attribute list. -/
theorem elemShape_attrs (e : Element) : (elemShape e).attrs = e.attrs := rfl

/-- elemShape preserves the ancestor form. -/
theorem elemShape_closestForm (e : Element) : (elemShape e).closestForm = e.closestForm := rfl

/-- The Choices configuration reads no options, so it factors through the
shape. -/
theorem elemShape_swsConfig (e : Element) : swsConfig (elemShape e) = swsConfig e := rfl

/-- Setting an index of a list to an element with the same shape preserves
the shape image of the list. -/
theorem shape_map_set (l : List Element) (i : Nat) (e e2 : Element)
    (hl : l[i]? = some e) (hs : elemShape e2 = elemShape e) :
    (l.set i e2).map elemShape = l.map elemShape := by
  induction l generalizing i with
  | nil => simp at hl
  | cons a as ih =>
    cases i with
    | zero =>
      have ha : a = e := by simpa using hl
      subst ha
      simp [hs]
    | succ n =>
      have hn : as[n]? = some e := by simpa using hl
      simp [ih n hn]

/-- A select-with-search iteration never touches change listeners. -/
theorem swsStep_changeListeners (s : PageState) (i : Nat) :
    (swsStep s i).changeListeners = s.changeListeners := by
  cases h : s.doc[i]? with
  | none => simp [swsStep, h]
  | some e => by_cases ht : e.tag = "select" <;> simp [swsStep, h, ht]

/-- A select-with-search iteration mutates only option text: the shape image
of the document is unchanged. -/
theorem swsStep_shape (s : PageState) (i : Nat) :
    (swsStep s i).doc.map elemShape = s.doc.map elemShape := by
  cases h : s.doc[i]? with
  | none => simp [swsStep, h]
  | some e =>
    by_cases ht : e.tag = "select"
    · simp only [swsStep, h, ht, if_true, ite_true]
      exact shape_map_set s.doc i e _ h (by simp [elemShape, ht])
    · simp [swsStep, h, ht]

/-- The widgets recorded by one select-with-search iteration. -/
theorem swsStep_widgets (s : PageState) (i : Nat) :
    (swsStep s i).widgets = s.widgets ++ (wAttach s.doc i).toList := by
  cases h : s.doc[i]? with
  | none => simp [swsStep, wAttach, h]
  | some e => by_cases ht : e.tag = "select" <;> simp [swsStep, wAttach, h, ht]

/-- An auto-submit iteration never touches the document. -/
theorem autoStep_doc (s : PageState) (i : Nat) : (autoStep s i).doc = s.doc := by
  cases h : s.doc[i]? with
  | none => simp [autoStep, h]
  | some e =>
    by_cases ht : e.tag = "select"
    · cases hf : e.closestForm <;> simp [autoStep, h, ht, hf]
    · simp [autoStep, h, ht]

/-- An auto-submit iteration never constructs widgets. -/
theorem autoStep_widgets (s : PageState) (i : Nat) :
    (autoStep s i).widgets = s.widgets := by
  cases h : s.doc[i]? with
  | none => simp [autoStep, h]
  | some e =>
    by_cases ht : e.tag = "select"
    · cases hf : e.closestForm <;> simp [autoStep, h, ht, hf]
    · simp [autoStep, h, ht]

/-- The listeners attached by one auto-submit iteration. -/
theorem autoStep_changeListeners (s : PageState) (i : Nat) :
    (autoStep s i).changeListeners = s.changeListeners ++ (autoAttach s.doc i).toList := by
  cases h : s.doc[i]? with
  | none => simp [autoStep, autoAttach, h]
  | some e =>
    by_cases ht : e.tag = "select"
    · cases hf : e.closestForm <;> simp [autoStep, autoAttach, h, ht, hf]
    · simp [autoStep, autoAttach, h, ht]

/-- querySelectorAll sees only element shapes, so it agrees on documents
with equal shape images. -/
theorem markedIdxFrom_congr (key : String) :
    ∀ l1 l2 : List Element, l1.map elemShape = l2.map elemShape →
    ∀ i, markedIdxFrom key i l1 = markedIdxFrom key i l2 := by
  intro l1
  induction l1 with
  | nil =>
    intro l2 h i
    cases l2 with
    | nil => rfl
    | cons b bs => simp at h
  | cons a as ih =>
    intro l2 h i
    cases l2 with
    | nil => simp at h
    | cons b bs =>
      simp only [List.map_cons, List.cons.injEq] at h
      have hattrs : a.attrs = b.attrs := by
        have h2 := congrArg Element.attrs h.1
        exact h2
      have hm : hasMarker a key = hasMarker b key := by
        unfold hasMarker getAttr
        rw [hattrs]
      simp only [markedIdxFrom]
      rw [hm]
      by_cases hk : hasMarker b key <;> simp [hk, ih bs h.2]

/-- markedIdx agrees on documents with equal shape images. -/
theorem markedIdx_congr (l1 l2 : List Element) (key : String)
    (h : l1.map elemShape = l2.map elemShape) :
    markedIdx l1 key = markedIdx l2 key :=
  markedIdxFrom_congr key l1 l2 h 0

/-- wAttach reads only element shapes. -/
theorem wAttach_congr (l1 l2 : List Element)
    (h : l1.map elemShape = l2.map elemShape) :
    wAttach l1 = wAttach l2 := by
  funext i
  have h1 : l1[i]?.map elemShape = l2[i]?.map elemShape := by
    rw [← List.getElem?_map, ← List.getElem?_map, h]
  cases ha : l1[i]? with
  | none =>
    cases hb : l2[i]? with
    | none => simp [wAttach, ha, hb]
    | some e2 => rw [ha, hb] at h1; simp at h1
  | some e1 =>
    cases hb : l2[i]? with
    | none => rw [ha, hb] at h1; simp at h1
    | some e2 =>
      rw [ha, hb] at h1
      simp only [Option.map_some', Option.some.injEq] at h1
      have htag : e1.tag = e2.tag := by
        have h2 := congrArg Element.tag h1
        exact h2
      have hcfg : swsConfig e1 = swsConfig e2 := by
        have h2 := congrArg swsConfig h1
        exact elemShape_swsConfig e1 ▸ elemShape_swsConfig e2 ▸ h2
      simp only [wAttach, ha, hb]
      rw [htag, hcfg]

/-- autoAttach reads only element shapes. -/
theorem autoAttach_congr (l1 l2 : List Element)
    (h : l1.map elemShape = l2.map elemShape) :
    autoAttach l1 = autoAttach l2 := by
  funext i
  have h1 : l1[i]?.map elemShape = l2[i]?.map elemShape := by
    rw [← List.getElem?_map, ← List.getElem?_map, h]
  cases ha : l1[i]? with
  | none =>
    cases hb : l2[i]? with
    | none => simp [autoAttach, ha, hb]
    | some e2 => rw [ha, hb] at h1; simp at h1
  | some e1 =>
    cases hb : l2[i]? with
    | none => rw [ha, hb] at h1; simp at h1
    | some e2 =>
      rw [ha, hb] at h1
      simp only [Option.map_some', Option.some.injEq] at h1
      have htag : e1.tag = e2.tag := by
        have h2 := congrArg Element.tag h1
        exact h2
      have hform : e1.closestForm = e2.closestForm := by
        have h2 := congrArg Element.closestForm h1
        exact h2
      simp only [autoAttach, ha, hb]
      rw [htag, hform]

/-- Folding select-with-search iterations never touches change listeners. -/
theorem foldl_swsStep_changeListeners (idxs : List Nat) (s : PageState) :
    (idxs.foldl swsStep s).changeListeners = s.changeListeners := by
  induction idxs generalizing s with
  | nil => rfl
  | cons i is ih => rw [List.foldl_cons, ih, swsStep_changeListeners]

/-- Folding select-with-search iterations preserves the document's shape
image. -/
theorem foldl_swsStep_shape (idxs : List Nat) (s : PageState) :
    (idxs.foldl swsStep s).doc.map elemShape = s.doc.map elemShape := by
  induction idxs generalizing s with
  | nil => rfl
  | cons i is ih => rw [List.foldl_cons, ih, swsStep_shape]

/-- The widgets a run of select-with-search iterations constructs. -/
theorem foldl_swsStep_widgets (idxs : List Nat) (s : PageState) :
    (idxs.foldl swsStep s).widgets = s.widgets ++ idxs.filterMap (wAttach s.doc) := by
  induction idxs generalizing s with
  | nil => simp
  | cons i is ih =>
    rw [List.foldl_cons, ih, wAttach_congr _ _ (swsStep_shape s i), swsStep_widgets,
      List.append_assoc]
    congr 1
    cases hA : wAttach s.doc i <;> simp [List.filterMap_cons, hA]

/-- Folding auto-submit iterations never touches the document. -/
theorem foldl_autoStep_doc (idxs : List Nat) (s : PageState) :
    (idxs.foldl autoStep s).doc = s.doc := by
  induction idxs generalizing s with
  | nil => rfl
  | cons i is ih => rw [List.foldl_cons, ih, autoStep_doc]

/-- Folding auto-submit iterations never constructs widgets. -/
theorem foldl_autoStep_widgets (idxs : List Nat) (s : PageState) :
    (idxs.foldl autoStep s).widgets = s.widgets := by
  induction idxs generalizing s with
  | nil => rfl
  | cons i is ih => rw [List.foldl_cons, ih, autoStep_widgets]

/-- The listeners a run of auto-submit iterations attaches. -/
theorem foldl_autoStep_changeListeners (idxs : List Nat) (s : PageState) :
    (idxs.foldl autoStep s).changeListeners
      = s.changeListeners ++ idxs.filterMap (autoAttach s.doc) := by
  induction idxs generalizing s with
  | nil => simp
  | cons i is ih =>
    rw [List.foldl_cons, ih, autoStep_doc, autoStep_changeListeners, List.append_assoc]
    congr 1
    cases hA : autoAttach s.doc i <;> simp [List.filterMap_cons, hA]

/-- The select-with-search pass preserves the document's shape image. -/
theorem swsPass_shape (st : PageState) :
    (swsPass st).doc.map elemShape = st.doc.map elemShape :=
  foldl_swsStep_shape _ _

/-- One full DOMContentLoaded handler appends exactly one scan's worth of
listeners. -/
theorem handler_changeListeners (st : PageState) :
    (bootstrapHandler st).changeListeners
      = st.changeListeners ++ attachedListeners st.doc := by
  unfold bootstrapHandler autoPass attachedListeners
  rw [foldl_autoStep_changeListeners,
    show (swsPass st).changeListeners = st.changeListeners from
      foldl_swsStep_changeListeners _ _,
    markedIdx_congr _ _ _ (swsPass_shape st),
    autoAttach_congr _ _ (swsPass_shape st)]

/-- One full DOMContentLoaded handler appends exactly one scan's worth of
widgets. -/
theorem handler_widgets (st : PageState) :
    (bootstrapHandler st).widgets = st.widgets ++ constructedWidgets st.doc := by
  unfold bootstrapHandler autoPass constructedWidgets
  rw [foldl_autoStep_widgets]
  exact foldl_swsStep_widgets _ _

/-- One full DOMContentLoaded handler preserves the document's shape
image. -/
theorem handler_shape (st : PageState) :
    (bootstrapHandler st).doc.map elemShape = st.doc.map elemShape := by
  unfold bootstrapHandler autoPass
  rw [foldl_autoStep_doc]
  exact foldl_swsStep_shape _ _

/-- attachedListeners agrees on documents with equal shape images. -/
theorem attachedListeners_congr (l1 l2 : List Element)
    (h : l1.map elemShape = l2.map elemShape) :
    attachedListeners l1 = attachedListeners l2 := by
  unfold attachedListeners
  rw [markedIdx_congr _ _ _ h, autoAttach_congr _ _ h]

/-- constructedWidgets agrees on documents with equal shape images. -/
theorem constructedWidgets_congr (l1 l2 : List Element)
    (h : l1.map elemShape = l2.map elemShape) :
    constructedWidgets l1 = constructedWidgets l2 := by
  unfold constructedWidgets
  rw [markedIdx_congr _ _ _ h, wAttach_congr _ _ h]

/-- C8 as stated is false: one page-size select inside a form, marked
auto-submit — after one scan it has one change listener, after a second scan
of the same document it has two, not at most one; the same doubling happens
to widget construction on a marked select-with-search element. -/
theorem spec_c8_counterexample :
    ¬ (listenerCount (bootstrapHandler (bootstrapHandler (initialPage [autoInFormEl]))) 0 ≤ 1) ∧
    listenerCount (bootstrapHandler (bootstrapHandler (initialPage [autoInFormEl]))) 0 = 2 ∧
    listenerCount (bootstrapHandler (initialPage [autoInFormEl])) 0 = 1 ∧
    widgetCount (bootstrapHandler (bootstrapHandler (initialPage [multiSelectEl]))) 0 = 2 ∧
    widgetCount (bootstrapHandler (initialPage [multiSelectEl])) 0 = 1 := by
  decide

/-- C8 amended: the bootstrap scan is not idempotent — nothing consumes the
marker, each auto-submit init calls addEventListener with a fresh closure
and each select-with-search init constructs a fresh widget, so running the
handler twice on the same document leaves every element with exactly twice
the listeners and twice the widgets one scan attaches. -/
theorem spec_c8_rescan_doubles (doc : List Element) (i : Nat) :
    listenerCount (bootstrapHandler (bootstrapHandler (initialPage doc))) i
      = 2 * listenerCount (bootstrapHandler (initialPage doc)) i ∧
    widgetCount (bootstrapHandler (bootstrapHandler (initialPage doc))) i
      = 2 * widgetCount (bootstrapHandler (initialPage doc)) i := by
  have hsh : (bootstrapHandler (initialPage doc)).doc.map elemShape = doc.map elemShape :=
    handler_shape (initialPage doc)
  have hL1 : (bootstrapHandler (initialPage doc)).changeListeners = attachedListeners doc := by
    rw [handler_changeListeners]
    rfl
  have hL2 : (bootstrapHandler (bootstrapHandler (initialPage doc))).changeListeners
      = attachedListeners doc ++ attachedListeners doc := by
    rw [handler_changeListeners, hL1, attachedListeners_congr _ _ hsh]
  have hW1 : (bootstrapHandler (initialPage doc)).widgets = constructedWidgets doc := by
    rw [handler_widgets]
    rfl
  have hW2 : (bootstrapHandler (bootstrapHandler (initialPage doc))).widgets
      = constructedWidgets doc ++ constructedWidgets doc := by
    rw [handler_widgets, hW1, constructedWidgets_congr _ _ hsh]
  constructor
  · unfold listenerCount
    rw [hL2, hL1, List.filter_append, List.length_append, Nat.two_mul]
  · unfold widgetCount
    rw [hW2, hW1, List.filter_append, List.length_append, Nat.two_mul]
